import Mathlib

/-!
Verification of the flink-on-k8s-operator FlinkCluster controller and its
admission validator.

Part 1 embeds the control flow of `FlinkClusterHandler.reconcile`
(src/controllers/flinkcluster/flinkcluster_controller.go, lines 127-257)
as a pure function over abstract step implementations.  The handler calls,
in order: `observer.observe`, `observer.syncRevisionStatus`,
`updater.updateStatusIfChanged`, `getDesiredClusterState`, and
`reconciler.reconcile`, with early returns on errors and on a status
change.  Each step is abstracted by a function whose effect signature
mirrors what the corresponding component touches in the source: the
observer only fills the ephemeral observed snapshot, the status updater
writes only the cluster status, the desired-state builder is pure, and
only the action reconciler writes workload objects.

Part 2 models the admission validator.  Its implementation is not part of
the sources here (only its test file is), so it is modelled from the
specification's update-validation rules and pinned to the behaviour the
test file asserts.
-/

/-- The controller-runtime result returned by a reconcile invocation
(`ctrl.Result`): a requeue flag and a requeue delay, here in seconds
(the source uses `5 * time.Second`). -/
structure CtrlResult where
  requeue : Bool
  requeueAfterSeconds : Nat
  deriving Repr, DecidableEq

/-- The empty `ctrl.Result{}` returned by the error paths of the handler. -/
def CtrlResult.empty : CtrlResult := { requeue := false, requeueAfterSeconds := 0 }

/-- The steps of `FlinkClusterHandler.reconcile`, in source order.  A
reconcile invocation records which steps it actually ran. -/
inductive ReconcileStep where
  | observe
  | syncRevisionStatus
  | updateStatusIfChanged
  | getDesiredClusterState
  | takeActions
  deriving Repr, DecidableEq

/-- The state a reconcile invocation can read or write: the handler's
ephemeral observed snapshot and desired state, plus the persisted cluster
status and the workload objects living in the orchestrator. -/
structure HandlerState (Obs Des Wk St : Type) where
  observed : Obs
  desired : Des
  workloads : Wk
  clusterStatus : St

/-- The components `FlinkClusterHandler.reconcile` delegates to, with
effect signatures matching the source: `observe` and `syncRevisionStatus`
read the cluster and fill the observed snapshot and may fail;
`updateStatusIfChanged` derives and writes the cluster status, reporting
whether it changed; `getDesiredClusterState` is a pure function of the
observed snapshot; `reconcileActions` (the `ClusterReconciler`) is the
only step that writes workload objects. -/
structure ClusterOps (Obs Des Wk St : Type) where
  observe : Wk → St → Obs → Option String × Obs
  syncRevisionStatus : Obs → Option String × Obs
  updateStatusIfChanged : Obs → St → (Bool × Option String) × St
  getDesiredClusterState : Obs → Des
  reconcileActions : Obs → Des → Wk → (CtrlResult × Option String) × Wk

/-- Embedding of `FlinkClusterHandler.reconcile`: run the steps in source
order with the source's early returns, producing the returned
`(ctrl.Result, error)`, the final state, and the list of steps executed. -/
def handlerReconcile {Obs Des Wk St : Type} (ops : ClusterOps Obs Des Wk St)
    (s : HandlerState Obs Des Wk St) :
    (CtrlResult × Option String) × HandlerState Obs Des Wk St × List ReconcileStep :=
  let ob := ops.observe s.workloads s.clusterStatus s.observed
  let s1 : HandlerState Obs Des Wk St := { s with observed := ob.2 }
  match ob.1 with
  | some e => ((CtrlResult.empty, some e), s1, [ReconcileStep.observe])
  | none =>
    let sync := ops.syncRevisionStatus s1.observed
    let s2 : HandlerState Obs Des Wk St := { s1 with observed := sync.2 }
    match sync.1 with
    | some e =>
      ((CtrlResult.empty, some e), s2,
        [ReconcileStep.observe, ReconcileStep.syncRevisionStatus])
    | none =>
      let upd := ops.updateStatusIfChanged s2.observed s2.clusterStatus
      let s3 : HandlerState Obs Des Wk St := { s2 with clusterStatus := upd.2 }
      match upd.1.2 with
      | some e =>
        ((CtrlResult.empty, some e), s3,
          [ReconcileStep.observe, ReconcileStep.syncRevisionStatus,
            ReconcileStep.updateStatusIfChanged])
      | none =>
        if upd.1.1 then
          (({ requeue := true, requeueAfterSeconds := 5 }, none), s3,
            [ReconcileStep.observe, ReconcileStep.syncRevisionStatus,
              ReconcileStep.updateStatusIfChanged])
        else
          let s4 : HandlerState Obs Des Wk St :=
            { s3 with desired := ops.getDesiredClusterState s3.observed }
          let act := ops.reconcileActions s4.observed s4.desired s4.workloads
          let s5 : HandlerState Obs Des Wk St := { s4 with workloads := act.2 }
          (act.1, s5,
            [ReconcileStep.observe, ReconcileStep.syncRevisionStatus,
              ReconcileStep.updateStatusIfChanged,
              ReconcileStep.getDesiredClusterState, ReconcileStep.takeActions])

/-- A trivial instantiation of the abstract components over unit state,
whose status updater reports a status change without error; used to
exhibit concrete runs of the handler. -/
def statusChangedOps : ClusterOps Unit Unit Unit Unit :=
  { observe := fun _ _ _ => (none, ())
    syncRevisionStatus := fun _ => (none, ())
    updateStatusIfChanged := fun _ _ => ((true, none), ())
    getDesiredClusterState := fun _ => ()
    reconcileActions := fun _ _ _ => ((CtrlResult.empty, none), ()) }

/-- A trivial instantiation whose observe step fails; used to exhibit a
concrete error run of the handler. -/
def observeFailsOps : ClusterOps Unit Unit Unit Unit :=
  { observe := fun _ _ _ => (some ("fetch failed"), ())
    syncRevisionStatus := fun _ => (none, ())
    updateStatusIfChanged := fun _ _ => ((false, none), ())
    getDesiredClusterState := fun _ => ()
    reconcileActions := fun _ _ _ => ((CtrlResult.empty, none), ()) }

/-- The unit handler state used by the concrete runs. -/
def unitState : HandlerState Unit Unit Unit Unit :=
  { observed := (), desired := (), workloads := (), clusterStatus := () }

/-!
Part 2: the admission validator.

Modelled from the spec: the `Validator` implementation
(`ValidateUpdate`, `checkControlAnnotations`, `validateJobManager`,
`validateTaskManager`) is not among the sources; only its test file
(src/controllers/flinkcluster/flinkcluster_controller.go, second part) is.
The definitions below follow the spec's update-validation rules (section
4.1) and the user-control rules, and are pinned to the concrete
behaviours the test file asserts: the user-control annotation check runs
first, a change while `status.control.state == InProgress` is rejected
with the control-in-progress message, the `savepointGeneration` rule is
checked before the `savepointsDir`-removal rule (TestUpdateSavepointGeneration
exercises both at once and expects the generation message), and the
savepoint-freshness rule applies to job-spec changes (TestUpdateCluster
accepts image-only changes without any savepoint).
-/

/-- Task-manager workload kind (`spec.taskManager.deploymentType`). -/
inductive DeploymentType where
  | statefulSet
  | deployment
  deriving Repr, DecidableEq

/-- Observed job state, as recorded in `status.components.job.state`. -/
inductive JobState where
  | pending
  | updating
  | restarting
  | running
  | succeeded
  | cancelled
  | failed
  deriving Repr, DecidableEq

/-- State of a user-requested control (`status.control.state`). -/
inductive ControlState where
  | requested
  | inProgress
  | succeeded
  | failed
  deriving Repr, DecidableEq

/-- A named extra container port of a manager spec. -/
structure NamedPort where
  name : String
  containerPort : Int
  deriving Repr, DecidableEq

/-- The standard named job-manager ports (RPC, blob, query, UI). -/
structure JobManagerPorts where
  rpc : Int
  blob : Int
  query : Int
  ui : Int
  deriving Repr, DecidableEq

/-- The standard named task-manager ports (RPC, data, query). -/
structure TaskManagerPorts where
  rpc : Int
  data : Int
  query : Int
  deriving Repr, DecidableEq

/-- Modelled from the spec: job-manager spec fields the validator reads. -/
structure JobManagerSpec where
  replicas : Int
  ports : JobManagerPorts
  extraPorts : List NamedPort
  deriving Repr, DecidableEq

/-- Modelled from the spec: task-manager spec fields the validator reads. -/
structure TaskManagerSpec where
  replicas : Int
  ports : TaskManagerPorts
  extraPorts : List NamedPort
  deploymentType : Option DeploymentType
  deriving Repr, DecidableEq

/-- Modelled from the spec: the job-spec fields the update validator
reads (jar source, parallelism, restart policy, savepoints directory,
from-savepoint override, max state age, savepoint generation counter,
take-savepoint-on-update flag). -/
structure JobSpec where
  jarFile : Option String
  parallelism : Option Int
  restartPolicy : Option String
  savepointsDir : Option String
  fromSavepoint : Option String
  maxStateAgeToRestoreSeconds : Option Int
  savepointGeneration : Int
  takeSavepointOnUpdate : Option Bool
  deriving Repr, DecidableEq

/-- Modelled from the spec: the cluster spec.  `job = none` classifies a
session cluster, `job = some j` a job cluster. -/
structure FlinkClusterSpec where
  image : String
  flinkVersion : String
  jobManager : JobManagerSpec
  taskManager : TaskManagerSpec
  job : Option JobSpec
  deriving Repr, DecidableEq

/-- Observed job status (`status.components.job`): engine state, savepoint
generation, last savepoint time (seconds) and location, whether the last
savepoint is the final one, and the completion time for terminal jobs. -/
structure JobStatus where
  state : JobState
  savepointGeneration : Int
  savepointTime : Option Int
  savepointLocation : Option String
  finalSavepoint : Bool
  completionTime : Option Int
  deriving Repr, DecidableEq

/-- Cluster status fields the validator reads. -/
structure FlinkClusterStatus where
  state : String
  job : Option JobStatus
  controlState : Option ControlState
  deriving Repr, DecidableEq

/-- A FlinkCluster object as the admission webhook sees it: the
user-control annotation value (if present), the spec, and the status. -/
structure FlinkCluster where
  userControl : Option String
  spec : FlinkClusterSpec
  status : FlinkClusterStatus
  deriving Repr, DecidableEq

/-- The user-control annotation key, as printed in rejection messages. -/
def controlAnnKey : String := "flinkclusters.flinkoperator.k8s.io/user-control"

/-- Rejection message for any change while a control is in progress. -/
def controlChangeMsg : String :=
  "change is not allowed for control in progress, annotation: " ++ controlAnnKey

/-- Rejection message for an unknown user-control annotation value. -/
def invalidControlMsg (v : String) : String :=
  "invalid value for annotation key: " ++ controlAnnKey ++ ", value: " ++ v
    ++ ", available values: savepoint, job-cancel"

/-- Rejection message: savepoint control on a session cluster. -/
def savepointSessionMsg : String :=
  "savepoint is not allowed for session cluster, annotation: " ++ controlAnnKey

/-- Rejection message: savepoint control without `spec.job.savepointsDir`. -/
def savepointNoDirMsg : String :=
  "savepoint is not allowed without spec.job.savepointsDir, annotation: " ++ controlAnnKey

/-- Rejection message: savepoint control while the job is not running. -/
def savepointNotRunningMsg : String :=
  "savepoint is not allowed because job is not started yet or already stopped, annotation: "
    ++ controlAnnKey

/-- Rejection message: job-cancel control on a session cluster. -/
def jobCancelSessionMsg : String :=
  "job-cancel is not allowed for session cluster, annotation: " ++ controlAnnKey

/-- Rejection message: job-cancel control while the job is not running. -/
def jobCancelNotRunningMsg : String :=
  "job-cancel is not allowed because job is not started yet or already terminated, annotation: "
    ++ controlAnnKey

/-- Rejection message: flipping between session cluster and job cluster. -/
def clusterTypeMsg : String :=
  "you cannot change cluster type between session cluster and job cluster"

/-- Rejection message: clearing `spec.job.savepointsDir`. -/
def removeDirMsg : String := "removing savepointsDir is not allowed"

/-- Rejection message: changing `spec.taskManager.deploymentType`. -/
def deploymentTypeMsg : String := "updating deploymentType is not allowed"

/-- Rejection message: job update without a savepoints directory. -/
def jobNoDirMsg : String :=
  "updating job is not allowed when spec.job.savepointsDir was not provided"

/-- Rejection message: `savepointGeneration` not increased to exactly the
observed generation plus one. -/
def genOnlyToMsg (n : Int) : String :=
  "you can only update savepointGeneration to " ++ toString n

/-- Rejection message: `savepointGeneration` changed together with other
job fields. -/
def genWithOthersMsg : String :=
  "you cannot update savepointGeneration with others at the same time"

/-- Rejection message: job update skipping the savepoint with no
up-to-date savepoint available. -/
def staleSavepointMsg : String :=
  "cannot update spec: taking savepoint is skipped but no up-to-date savepoint"

/-- The user-control annotation value requesting a savepoint. -/
def savepointControlName : String := "savepoint"

/-- The user-control annotation value requesting a job cancel. -/
def jobCancelControlName : String := "job-cancel"

/-- The savepoint generation recorded in `status.components.job`
(zero when no job status has been observed). -/
def observedJobGen (c : FlinkCluster) : Int :=
  match c.status.job with
  | some js => js.savepointGeneration
  | none => 0

/-- Whether the observed job is currently running (started and not
terminal), per `status.components.job.state`. -/
def jobRunning (c : FlinkCluster) : Bool :=
  match c.status.job with
  | some js => js.state = JobState.running
  | none => false

/-- Whether the observed job requires a final savepoint to be taken
before it may be replaced (`status.components.job.finalSavepoint`). -/
def finalSavepointRequired (c : FlinkCluster) : Bool :=
  match c.status.job with
  | some js => js.finalSavepoint
  | none => false

/-- Modelled from the spec: preconditions of the `savepoint` user
control: not a session cluster, `spec.job.savepointsDir` set, and the job
currently running (not pre-start, not terminal). -/
def checkSavepointControl (old : FlinkCluster) : Option String :=
  match old.spec.job with
  | none => some savepointSessionMsg
  | some job =>
    if job.savepointsDir = none then some savepointNoDirMsg
    else if jobRunning old then none
    else some savepointNotRunningMsg

/-- Modelled from the spec: preconditions of the `job-cancel` user
control: not a session cluster and the job currently running. -/
def checkJobCancelControl (old : FlinkCluster) : Option String :=
  match old.spec.job with
  | none => some jobCancelSessionMsg
  | some _ =>
    if jobRunning old then none
    else some jobCancelNotRunningMsg

/-- Modelled from the spec: validation of the user-control annotation on
update, run before the spec checks.  Only a changed annotation is
examined; any change while a control is in progress is rejected outright
(the spec has the user clear the annotation only once the control is
terminal); otherwise a newly set value must be `savepoint` or
`job-cancel` and its preconditions must hold. -/
def checkUserControl (old new : FlinkCluster) : Option String :=
  if new.userControl = old.userControl then none
  else if old.status.controlState = some ControlState.inProgress then some controlChangeMsg
  else
    match new.userControl with
    | none => none
    | some ctrl =>
      if ctrl = savepointControlName then checkSavepointControl old
      else if ctrl = jobCancelControlName then checkJobCancelControl old
      else some (invalidControlMsg ctrl)

/-- The task-manager deployment type of a cluster spec. -/
def tmDeploymentType (c : FlinkCluster) : Option DeploymentType :=
  c.spec.taskManager.deploymentType

/-- Modelled from the spec: whether the latest observed savepoint is
young enough to restore from: its age, measured against `now` while the
job is running and against `status.components.job.completionTime` once
the job is terminal, is at most `maxStateAgeToRestoreSeconds`. -/
def savepointUpToDate (now : Int) (old : FlinkCluster) (maxAge : Option Int) : Bool :=
  match old.status.job, maxAge with
  | some js, some a =>
    match js.savepointTime, js.savepointLocation with
    | some t, some _ =>
      let ref := if js.state = JobState.running then now
        else
          match js.completionTime with
          | some ct => ct
          | none => now
      ref - t ≤ a
    | _, _ => false
  | _, _ => false

/-- Whether `spec.job.takeSavepointOnUpdate` permits taking a savepoint
on update (`nil` or `true`). -/
def takeSavepointEnabled (j : JobSpec) : Bool :=
  !(j.takeSavepointOnUpdate = some false)

/-- Modelled from the spec: a usable savepoint exists for a job update
when `fromSavepoint` is provided in the new spec, or a savepoint can
still be taken (take-savepoint-on-update not disabled, job running, no
final savepoint required yet), or the latest observed savepoint is
up to date. -/
def savepointUsable (now : Int) (old : FlinkCluster) (newJob : JobSpec) : Bool :=
  newJob.fromSavepoint.isSome
    || (takeSavepointEnabled newJob && jobRunning old && !finalSavepointRequired old)
    || savepointUpToDate now old newJob.maxStateAgeToRestoreSeconds

/-- A job spec with its savepoint generation cleared, for comparing all
other fields. -/
def clearGen (j : JobSpec) : JobSpec := { j with savepointGeneration := 0 }

/-- Modelled from the spec: the job-level spec-change rules, in order: a
changed `savepointGeneration` must equal the observed generation plus one
and must change alone; `savepointsDir` cannot be cleared;
`taskManager.deploymentType` cannot change; any other job-spec change
requires `savepointsDir` in the old spec and a usable savepoint. -/
def validateJobUpdate (now : Int) (old new : FlinkCluster) (oldJob newJob : JobSpec) :
    Option String :=
  if newJob.savepointGeneration ≠ oldJob.savepointGeneration then
    if newJob.savepointGeneration ≠ observedJobGen old + 1 then
      some (genOnlyToMsg (observedJobGen old + 1))
    else if clearGen newJob ≠ clearGen oldJob then some genWithOthersMsg
    else none
  else if oldJob.savepointsDir.isSome && newJob.savepointsDir.isNone then
    some removeDirMsg
  else if tmDeploymentType old ≠ tmDeploymentType new then some deploymentTypeMsg
  else if newJob ≠ oldJob then
    if oldJob.savepointsDir.isNone then some jobNoDirMsg
    else if savepointUsable now old newJob then none
    else some staleSavepointMsg
  else none

/-- Modelled from the spec: the spec-change rules of update validation,
evaluated once a spec change is known to exist and no control is in
progress: the session/job classification cannot flip, and the job-level
rules of `validateJobUpdate` apply. -/
def validateSpecUpdate (now : Int) (old new : FlinkCluster) : Option String :=
  match old.spec.job, new.spec.job with
  | some oldJob, some newJob => validateJobUpdate now old new oldJob newJob
  | none, none =>
    if tmDeploymentType old ≠ tmDeploymentType new then some deploymentTypeMsg
    else none
  | _, _ => some clusterTypeMsg

/-- Modelled from the spec: `Validator.ValidateUpdate`.  The user-control
annotation is checked first; then pure status changes are allowed; then
any spec change while `status.control.state == InProgress` is rejected;
then the ordered spec-change rules run.  `now` is the injected clock used
for savepoint freshness. -/
def validateUpdate (now : Int) (old new : FlinkCluster) : Option String :=
  match checkUserControl old new with
  | some e => some e
  | none =>
    if new.spec = old.spec then none
    else if old.status.controlState = some ControlState.inProgress then some controlChangeMsg
    else validateSpecUpdate now old new

/-- Which manager spec a port-uniqueness message refers to. -/
inductive ManagerKind where
  | jobmanager
  | taskmanager
  deriving Repr, DecidableEq

/-- The component name printed in port-uniqueness messages. -/
def ManagerKind.label : ManagerKind → String
  | ManagerKind.jobmanager => "jobmanager"
  | ManagerKind.taskmanager => "taskmanager"

/-- Rejection message for a duplicated port name in a manager spec. -/
def dupPortNameMsg (k : ManagerKind) (n : String) : String :=
  "duplicate port name " ++ n ++ " in " ++ k.label
    ++ ", each port name of ports and extraPorts must be unique"

/-- Rejection message for a duplicated container-port number in a
manager spec. -/
def dupContainerPortMsg (k : ManagerKind) (p : Int) : String :=
  "duplicate containerPort " ++ toString p ++ " in " ++ k.label
    ++ ", each port number of ports and extraPorts must be unique"

/-- The first key (under `f`) that occurs twice in the list, if any. -/
def firstDupBy {α β : Type} [DecidableEq β] (f : α → β) : List α → Option β
  | [] => none
  | p :: ps => if f p ∈ ps.map f then some (f p) else firstDupBy f ps

/-- Modelled from the spec: the port-uniqueness check of
`validateJobManager` / `validateTaskManager`: over the union of standard
and extra ports, port names must be unique and container-port numbers
must be unique; the rejection message names the duplicated name or
number. -/
def validatePorts (k : ManagerKind) (ports : List NamedPort) : Option String :=
  match firstDupBy (fun p => p.name) ports with
  | some n => some (dupPortNameMsg k n)
  | none =>
    match firstDupBy (fun p => p.containerPort) ports with
    | some p => some (dupContainerPortMsg k p)
    | none => none

/-- The union of a job manager's standard named ports and extra ports. -/
def jmPortList (jm : JobManagerSpec) : List NamedPort :=
  { name := "rpc", containerPort := jm.ports.rpc }
    :: { name := "blob", containerPort := jm.ports.blob }
    :: { name := "query", containerPort := jm.ports.query }
    :: { name := "ui", containerPort := jm.ports.ui }
    :: jm.extraPorts

/-- The union of a task manager's standard named ports and extra ports. -/
def tmPortList (tm : TaskManagerSpec) : List NamedPort :=
  { name := "rpc", containerPort := tm.ports.rpc }
    :: { name := "data", containerPort := tm.ports.data }
    :: { name := "query", containerPort := tm.ports.query }
    :: tm.extraPorts

/-- The job-manager port-uniqueness check. -/
def validateJobManagerPorts (jm : JobManagerSpec) : Option String :=
  validatePorts ManagerKind.jobmanager (jmPortList jm)

/-- The task-manager port-uniqueness check. -/
def validateTaskManagerPorts (tm : TaskManagerSpec) : Option String :=
  validatePorts ManagerKind.taskmanager (tmPortList tm)

/-- The job-manager spec of the simple test cluster. -/
def simpleJmSpec : JobManagerSpec :=
  { replicas := 1
    ports := { rpc := 8001, blob := 8002, query := 8003, ui := 8004 }
    extraPorts := [] }

/-- The task-manager spec of the simple test cluster. -/
def simpleTmSpec : TaskManagerSpec :=
  { replicas := 1
    ports := { rpc := 8001, data := 8005, query := 8003 }
    extraPorts := []
    deploymentType := none }

/-- The job spec of the simple test cluster (`getSimpleFlinkCluster`). -/
def simpleJobSpec : JobSpec :=
  { jarFile := some ("gs://my-bucket/myjob.jar")
    parallelism := some 2
    restartPolicy := some ("FromSavepointOnFailure")
    savepointsDir := some ("/savepoint_dir")
    fromSavepoint := none
    maxStateAgeToRestoreSeconds := some 60
    savepointGeneration := 0
    takeSavepointOnUpdate := none }

/-- A cluster mirroring the test helper `getSimpleFlinkCluster`. -/
def simpleCluster : FlinkCluster :=
  { userControl := none
    spec :=
      { image := "flink:1.8.1"
        flinkVersion := "1.8"
        jobManager := simpleJmSpec
        taskManager := simpleTmSpec
        job := some simpleJobSpec }
    status := { state := "", job := none, controlState := none } }

/-- The simple cluster with a user control recorded as in progress. -/
def inProgressCluster : FlinkCluster :=
  { simpleCluster with
    status := { state := "", job := none, controlState := some ControlState.inProgress } }

/-- The simple job spec with a new jar file. -/
def v2JobSpec : JobSpec := { simpleJobSpec with jarFile := some ("gs://my-bucket/myjob-v2.jar") }

/-- A spec change (new jar file) against the in-progress cluster. -/
def inProgressSpecChange : FlinkCluster :=
  { inProgressCluster with
    spec := { inProgressCluster.spec with job := some v2JobSpec } }

/-- A metadata-only change adding the savepoint user-control annotation
against the in-progress cluster. -/
def inProgressAnnChange : FlinkCluster :=
  { inProgressCluster with userControl := some ("savepoint") }

/-- A job status that has observed savepoint generation 2. -/
def gen2JobStatus : JobStatus :=
  { state := JobState.pending
    savepointGeneration := 2
    savepointTime := none
    savepointLocation := none
    finalSavepoint := false
    completionTime := none }

/-- Old cluster with observed savepoint generation 2 and a control in
progress. -/
def genInProgressOld : FlinkCluster :=
  { simpleCluster with
    status := { state := "", job := some gen2JobStatus,
                controlState := some ControlState.inProgress } }

/-- The same update raising only `savepointGeneration` to 3, against the
in-progress cluster. -/
def genInProgressNew : FlinkCluster :=
  { genInProgressOld with
    spec := { genInProgressOld.spec with
              job := some { simpleJobSpec with savepointGeneration := 3 } } }

/-- Old cluster with observed savepoint generation 2 and no control in
progress. -/
def genOld : FlinkCluster :=
  { simpleCluster with
    status := { state := "", job := some gen2JobStatus, controlState := none } }

/-- New cluster raising only `savepointGeneration` to 3. -/
def genNew : FlinkCluster :=
  { genOld with
    spec := { genOld.spec with
              job := some { simpleJobSpec with savepointGeneration := 3 } } }

/-- The simple cluster turned into a session cluster (no job spec). -/
def sessionNew : FlinkCluster :=
  { simpleCluster with spec := { simpleCluster.spec with job := none } }

/-- The simple cluster with `spec.job.savepointsDir` cleared. -/
def noDirNew : FlinkCluster :=
  { simpleCluster with
    spec := { simpleCluster.spec with
              job := some { simpleJobSpec with savepointsDir := none } } }

/-- A running job status with a savepoint taken at time 950. -/
def runningSp950 : JobStatus :=
  { state := JobState.running
    savepointGeneration := 0
    savepointTime := some 950
    savepointLocation := some ("gs://my-bucket/my-sp-123")
    finalSavepoint := false
    completionTime := none }

/-- Old cluster with a running job and a savepoint taken at time 950. -/
def freshSavepointOld : FlinkCluster :=
  { simpleCluster with
    status := { state := "", job := some runningSp950, controlState := none } }

/-- New job spec changing the jar with savepoint-on-update disabled. -/
def v2NoSpJobSpec : JobSpec := { v2JobSpec with takeSavepointOnUpdate := some false }

/-- New cluster changing the jar with savepoint-on-update disabled. -/
def freshSavepointNew : FlinkCluster :=
  { freshSavepointOld with
    spec := { freshSavepointOld.spec with job := some v2NoSpJobSpec } }

/-- New cluster for the savepoint-freshness counterexample: jar changed,
savepoint-on-update disabled, `fromSavepoint` provided, and the
task-manager deployment type changed as well. -/
def dtAndJobChangeNew : FlinkCluster :=
  { simpleCluster with
    spec := { simpleCluster.spec with
              taskManager := { simpleTmSpec with deploymentType := some DeploymentType.deployment }
              job := some { v2NoSpJobSpec with fromSavepoint := some ("gs://my-bucket/sp-1") } } }

/-- A job-manager spec whose extra port duplicates the standard RPC port
name. -/
def jmDupName : JobManagerSpec :=
  { simpleJmSpec with extraPorts := [{ name := "rpc", containerPort := 9001 }] }

/-- A task-manager spec whose extra port duplicates the standard RPC port
number. -/
def tmDupNumber : TaskManagerSpec :=
  { simpleTmSpec with extraPorts := [{ name := "extra", containerPort := 8001 }] }

/-- The simple cluster with only its status changed. -/
def statusOnlyNew : FlinkCluster :=
  { simpleCluster with status := { state := "Running", job := none, controlState := none } }

/-- C1: if the status updater reports that the cluster status changed
(and no earlier step failed), `FlinkClusterHandler.reconcile` returns a
requeue-after-5-seconds result with a nil error, does not invoke the
desired-state builder or the action reconciler, and leaves the workload
objects unmutated. -/
theorem reconcile_statusChanged_barrier {Obs Des Wk St : Type}
    (ops : ClusterOps Obs Des Wk St) (s : HandlerState Obs Des Wk St)
    (hobs : (ops.observe s.workloads s.clusterStatus s.observed).1 = none)
    (hsync : (ops.syncRevisionStatus (ops.observe s.workloads s.clusterStatus s.observed).2).1 = none)
    (hupd : (ops.updateStatusIfChanged
        (ops.syncRevisionStatus (ops.observe s.workloads s.clusterStatus s.observed).2).2
        s.clusterStatus).1 = (true, none)) :
    (handlerReconcile ops s).1 = ({ requeue := true, requeueAfterSeconds := 5 }, none)
      ∧ (handlerReconcile ops s).2.1.workloads = s.workloads
      ∧ (handlerReconcile ops s).2.1.desired = s.desired
      ∧ (handlerReconcile ops s).2.2
          = [ReconcileStep.observe, ReconcileStep.syncRevisionStatus,
              ReconcileStep.updateStatusIfChanged] := by
  simp [handlerReconcile, hobs, hsync, hupd]

/-- C1 witness: a concrete run of the handler in which the status updater
reports a change. -/
theorem reconcile_statusChanged_barrier_witness :
    (handlerReconcile statusChangedOps unitState).1
        = ({ requeue := true, requeueAfterSeconds := 5 }, none)
      ∧ (handlerReconcile statusChangedOps unitState).2.1.workloads = unitState.workloads
      ∧ (handlerReconcile statusChangedOps unitState).2.1.desired = unitState.desired
      ∧ (handlerReconcile statusChangedOps unitState).2.2
          = [ReconcileStep.observe, ReconcileStep.syncRevisionStatus,
              ReconcileStep.updateStatusIfChanged] :=
  reconcile_statusChanged_barrier statusChangedOps unitState rfl rfl rfl

/-- C2: if the observe step or the revision-sync step fails,
`FlinkClusterHandler.reconcile` returns that error with the empty
(no-requeue) result and performs no further steps: the cluster status,
the desired state and the workload objects are all left unchanged. -/
theorem reconcile_error_aborts {Obs Des Wk St : Type}
    (ops : ClusterOps Obs Des Wk St) (s : HandlerState Obs Des Wk St) (e : String)
    (h : (ops.observe s.workloads s.clusterStatus s.observed).1 = some e
      ∨ ((ops.observe s.workloads s.clusterStatus s.observed).1 = none
          ∧ (ops.syncRevisionStatus (ops.observe s.workloads s.clusterStatus s.observed).2).1
              = some e)) :
    (handlerReconcile ops s).1 = (CtrlResult.empty, some e)
      ∧ (handlerReconcile ops s).2.1.workloads = s.workloads
      ∧ (handlerReconcile ops s).2.1.clusterStatus = s.clusterStatus
      ∧ (handlerReconcile ops s).2.1.desired = s.desired
      ∧ ReconcileStep.updateStatusIfChanged ∉ (handlerReconcile ops s).2.2
      ∧ ReconcileStep.getDesiredClusterState ∉ (handlerReconcile ops s).2.2
      ∧ ReconcileStep.takeActions ∉ (handlerReconcile ops s).2.2 := by
  rcases h with hobs | ⟨hobs, hsync⟩
  · simp [handlerReconcile, hobs]
  · simp [handlerReconcile, hobs, hsync]

/-- C2 witness: a concrete run of the handler whose observe step fails. -/
theorem reconcile_error_aborts_witness :
    (handlerReconcile observeFailsOps unitState).1 = (CtrlResult.empty, some ("fetch failed"))
      ∧ (handlerReconcile observeFailsOps unitState).2.1.workloads = unitState.workloads
      ∧ (handlerReconcile observeFailsOps unitState).2.1.clusterStatus = unitState.clusterStatus
      ∧ (handlerReconcile observeFailsOps unitState).2.1.desired = unitState.desired
      ∧ ReconcileStep.updateStatusIfChanged ∉ (handlerReconcile observeFailsOps unitState).2.2
      ∧ ReconcileStep.getDesiredClusterState ∉ (handlerReconcile observeFailsOps unitState).2.2
      ∧ ReconcileStep.takeActions ∉ (handlerReconcile observeFailsOps unitState).2.2 :=
  reconcile_error_aborts observeFailsOps unitState ("fetch failed") (Or.inl rfl)

/-- If an update passes validation and is not a pure status change, it
passed the ordered spec-change rules. -/
theorem specUpdate_none_of_validateUpdate_none {now : Int} {old new : FlinkCluster}
    (h : validateUpdate now old new = none) (hne : ¬ new.spec = old.spec) :
    validateSpecUpdate now old new = none := by
  unfold validateUpdate at h
  cases hcu : checkUserControl old new <;> rw [hcu] at h
  · rw [if_neg hne] at h
    by_cases hprog : old.status.controlState = some ControlState.inProgress
    · rw [if_pos hprog] at h
      exact absurd h (by simp)
    · rwa [if_neg hprog] at h
  · exact absurd h (by simp)

/-- C9: a status-only update (spec and user-control annotation unchanged)
is always allowed; in particular a no-op update is allowed. -/
theorem validateUpdate_statusOnly_allowed (now : Int) (old new : FlinkCluster)
    (hspec : new.spec = old.spec) (hann : new.userControl = old.userControl) :
    validateUpdate now old new = none := by
  simp [validateUpdate, checkUserControl, hspec, hann]

/-- C9 witness: a pure status change against the simple cluster. -/
theorem validateUpdate_statusOnly_allowed_witness :
    statusOnlyNew.spec = simpleCluster.spec
      ∧ statusOnlyNew.userControl = simpleCluster.userControl
      ∧ validateUpdate 0 simpleCluster statusOnlyNew = none :=
  ⟨rfl, rfl, validateUpdate_statusOnly_allowed 0 simpleCluster statusOnlyNew rfl rfl⟩

/-- C3: while `status.control.state` is in progress, any change (to the
user-control annotation or to the spec) is rejected with the
control-in-progress message, regardless of every other update-validation
condition: the theorem assumes nothing about the rest of the clusters, so
the in-progress gate fires first even when later conditions (such as the
session-cluster checks) would also fail. -/
theorem validateUpdate_inProgress_rejects_first (now : Int) (old new : FlinkCluster)
    (hprog : old.status.controlState = some ControlState.inProgress)
    (hchange : new.userControl ≠ old.userControl ∨ new.spec ≠ old.spec) :
    validateUpdate now old new = some controlChangeMsg := by
  by_cases hann : new.userControl = old.userControl
  · rcases hchange with h | h
    · exact absurd hann h
    · simp [validateUpdate, checkUserControl, hann, hprog, h]
  · simp [validateUpdate, checkUserControl, hann, hprog]

/-- C3 witness: a jar-file change against a cluster with an in-progress
control, which is also a session-cluster-irrelevant change. -/
theorem validateUpdate_inProgress_rejects_first_witness :
    inProgressCluster.status.controlState = some ControlState.inProgress
      ∧ inProgressSpecChange.spec ≠ inProgressCluster.spec
      ∧ validateUpdate 0 inProgressCluster inProgressSpecChange = some controlChangeMsg :=
  ⟨rfl, by decide,
    validateUpdate_inProgress_rejects_first 0 inProgressCluster inProgressSpecChange rfl
      (Or.inr (by decide))⟩

/-- C10: while a control is in progress, even a metadata-only update that
just adds the user-control annotation (no spec field changed) is rejected,
with the exact message naming the control in progress and the annotation
key. -/
theorem validateUpdate_annOnly_inProgress_rejected (now : Int) (old new : FlinkCluster)
    (v : String)
    (hprog : old.status.controlState = some ControlState.inProgress)
    (hold : old.userControl = none) (hnew : new.userControl = some v)
    (hspec : new.spec = old.spec) :
    validateUpdate now old new = some controlChangeMsg
      ∧ controlChangeMsg
          = "change is not allowed for control in progress, annotation: flinkclusters.flinkoperator.k8s.io/user-control" := by
  constructor
  · have hne : new.userControl ≠ old.userControl := by simp [hold, hnew]
    simp [validateUpdate, checkUserControl, hne, hprog]
  · rfl

/-- C10 witness: adding the savepoint annotation with an unchanged spec
against the in-progress cluster. -/
theorem validateUpdate_annOnly_inProgress_rejected_witness :
    inProgressCluster.status.controlState = some ControlState.inProgress
      ∧ inProgressCluster.userControl = none
      ∧ inProgressAnnChange.userControl = some ("savepoint")
      ∧ inProgressAnnChange.spec = inProgressCluster.spec
      ∧ validateUpdate 0 inProgressCluster inProgressAnnChange = some controlChangeMsg :=
  ⟨rfl, rfl, rfl, rfl,
    (validateUpdate_annOnly_inProgress_rejected 0 inProgressCluster inProgressAnnChange
      ("savepoint") rfl rfl rfl rfl).1⟩

/-- C5: flipping the session/job classification (exactly one of the two
job specs is nil) is always rejected. -/
theorem validateUpdate_classification_flip_rejected (now : Int) (old new : FlinkCluster)
    (hflip : old.spec.job.isNone ≠ new.spec.job.isNone) :
    (validateUpdate now old new).isSome := by
  rw [Option.isSome_iff_ne_none]
  intro h
  have hne : ¬ new.spec = old.spec := by
    intro hs
    exact hflip (by rw [hs])
  have hspec := specUpdate_none_of_validateUpdate_none h hne
  unfold validateSpecUpdate at hspec
  cases hoj : old.spec.job <;> cases hnj : new.spec.job <;>
      rw [hoj, hnj] at hflip hspec <;> simp at hflip hspec

/-- C5 witness: turning the simple job cluster into a session cluster. -/
theorem validateUpdate_classification_flip_rejected_witness :
    simpleCluster.spec.job.isNone ≠ sessionNew.spec.job.isNone
      ∧ (validateUpdate 0 simpleCluster sessionNew).isSome :=
  ⟨by decide,
    validateUpdate_classification_flip_rejected 0 simpleCluster sessionNew (by decide)⟩

/-- C6: a savepoints directory that is set in the old spec can never be
cleared: every update whose new spec has no `spec.job.savepointsDir`
while the old one has is rejected. -/
theorem validateUpdate_savepointsDir_never_cleared (now : Int) (old new : FlinkCluster)
    (hold : (Option.bind old.spec.job JobSpec.savepointsDir).isSome)
    (hnew : Option.bind new.spec.job JobSpec.savepointsDir = none) :
    (validateUpdate now old new).isSome := by
  rw [Option.isSome_iff_ne_none]
  intro h
  cases hoj : old.spec.job with
  | none => rw [hoj] at hold; simp at hold
  | some oj =>
    rw [hoj] at hold
    simp only [Option.some_bind] at hold
    cases hnj : new.spec.job with
    | none =>
      have hne : ¬ new.spec = old.spec := by
        intro hs
        rw [hs, hoj] at hnj
        exact Option.noConfusion hnj
      have hspec := specUpdate_none_of_validateUpdate_none h hne
      unfold validateSpecUpdate at hspec
      rw [hoj, hnj] at hspec
      simp at hspec
    | some nj =>
      rw [hnj] at hnew
      simp only [Option.some_bind] at hnew
      have hdirne : nj ≠ oj := by
        intro hj
        rw [← hj, hnew] at hold
        simp at hold
      have hne : ¬ new.spec = old.spec := by
        intro hs
        rw [hs, hoj] at hnj
        exact hdirne (Option.some_injective _ hnj).symm
      have hspec := specUpdate_none_of_validateUpdate_none h hne
      unfold validateSpecUpdate at hspec
      rw [hoj, hnj] at hspec
      have hb : validateJobUpdate now old new oj nj = none := hspec
      unfold validateJobUpdate at hb
      by_cases hgen : nj.savepointGeneration ≠ oj.savepointGeneration
      · rw [if_pos hgen] at hb
        by_cases hexp : nj.savepointGeneration ≠ observedJobGen old + 1
        · rw [if_pos hexp] at hb
          exact Option.noConfusion hb
        · rw [if_neg hexp] at hb
          have hcg : clearGen nj ≠ clearGen oj := by
            intro hc
            have hdir : nj.savepointsDir = oj.savepointsDir :=
              congrArg (fun j => j.savepointsDir) hc
            rw [hnew] at hdir
            rw [← hdir] at hold
            simp at hold
          rw [if_pos hcg] at hb
          exact Option.noConfusion hb
      · rw [if_neg hgen] at hb
        have hrm : (oj.savepointsDir.isSome && nj.savepointsDir.isNone) = true := by
          rw [hnew, Bool.and_eq_true]
          exact ⟨hold, rfl⟩
        rw [if_pos hrm] at hb
        exact Option.noConfusion hb

/-- C6 witness: clearing the savepoints directory of the simple cluster. -/
theorem validateUpdate_savepointsDir_never_cleared_witness :
    (Option.bind simpleCluster.spec.job JobSpec.savepointsDir).isSome
      ∧ Option.bind noDirNew.spec.job JobSpec.savepointsDir = none
      ∧ (validateUpdate 0 simpleCluster noDirNew).isSome :=
  ⟨rfl, rfl,
    validateUpdate_savepointsDir_never_cleared 0 simpleCluster noDirNew rfl rfl⟩

/-- C4 (amended): when `spec.job.savepointGeneration` differs between old
and new spec, the update is rejected unless the new value equals the
observed `status.components.job.savepointGeneration + 1`, and rejected if
any other job field changes at the same time; when it equals exactly the
observed generation plus one and no other job field changes, the update
is accepted provided no control is in progress and the user-control
annotation check passes (the in-progress gate precedes this rule). -/
theorem validateUpdate_savepointGeneration (now : Int) (old new : FlinkCluster)
    (oj nj : JobSpec) (hoj : old.spec.job = some oj) (hnj : new.spec.job = some nj)
    (hgen : nj.savepointGeneration ≠ oj.savepointGeneration) :
    (nj.savepointGeneration ≠ observedJobGen old + 1 → (validateUpdate now old new).isSome)
      ∧ (clearGen nj ≠ clearGen oj → (validateUpdate now old new).isSome)
      ∧ (nj.savepointGeneration = observedJobGen old + 1 → clearGen nj = clearGen oj →
          checkUserControl old new = none →
          ¬ old.status.controlState = some ControlState.inProgress →
          validateUpdate now old new = none) := by
  have hne : ¬ new.spec = old.spec := by
    intro hs
    rw [hs, hoj] at hnj
    have heq : oj = nj := Option.some_injective _ hnj
    rw [heq] at hgen
    exact hgen rfl
  refine ⟨?_, ?_, ?_⟩
  · intro hexp
    rw [Option.isSome_iff_ne_none]
    intro h
    have hspec := specUpdate_none_of_validateUpdate_none h hne
    unfold validateSpecUpdate at hspec
    rw [hoj, hnj] at hspec
    have hb : validateJobUpdate now old new oj nj = none := hspec
    unfold validateJobUpdate at hb
    rw [if_pos hgen, if_pos hexp] at hb
    exact Option.noConfusion hb
  · intro hcg
    rw [Option.isSome_iff_ne_none]
    intro h
    have hspec := specUpdate_none_of_validateUpdate_none h hne
    unfold validateSpecUpdate at hspec
    rw [hoj, hnj] at hspec
    have hb : validateJobUpdate now old new oj nj = none := hspec
    unfold validateJobUpdate at hb
    rw [if_pos hgen] at hb
    by_cases hexp : nj.savepointGeneration ≠ observedJobGen old + 1
    · rw [if_pos hexp] at hb
      exact Option.noConfusion hb
    · rw [if_neg hexp, if_pos hcg] at hb
      exact Option.noConfusion hb
  · intro hexp hcg hcu hprog
    simp only [validateUpdate, hcu]
    rw [if_neg hne, if_neg hprog]
    unfold validateSpecUpdate
    rw [hoj, hnj]
    show validateJobUpdate now old new oj nj = none
    unfold validateJobUpdate
    rw [if_pos hgen, if_neg (not_not_intro hexp), if_neg (not_not_intro hcg)]

/-- C4 counterexample: the claim's acceptance half fails as stated: an
update raising only `savepointGeneration` to exactly the observed
generation plus one is still rejected when a control is in progress. -/
theorem validateUpdate_savepointGeneration_counterexample :
    genInProgressNew.spec.job.map JobSpec.savepointGeneration
        = some (observedJobGen genInProgressOld + 1)
      ∧ genInProgressNew.spec.job.map clearGen = genInProgressOld.spec.job.map clearGen
      ∧ validateUpdate 0 genInProgressOld genInProgressNew ≠ none := by
  refine ⟨by decide, by decide, by decide⟩

/-- C4 witness: raising only the generation to the observed generation
plus one, with no control in progress, is accepted. -/
theorem validateUpdate_savepointGeneration_witness :
    genNew.spec.job = some { simpleJobSpec with savepointGeneration := 3 }
      ∧ validateUpdate 0 genOld genNew = none :=
  ⟨rfl,
    (validateUpdate_savepointGeneration 0 genOld genNew simpleJobSpec
        { simpleJobSpec with savepointGeneration := 3 } rfl rfl (by decide)).2.2
      (by decide) rfl rfl (by decide)⟩

/-- C7 (amended): for an update that changes the job spec (with
`savepointGeneration` unchanged) and has `takeSavepointOnUpdate` set to
false: the update is rejected whenever the latest observed savepoint is
not within `maxStateAgeToRestoreSeconds` (measured against `now` for a
running job and against the completion time for a terminal one) and no
`fromSavepoint` is provided; it is accepted when the savepoint is within
that age or `fromSavepoint` is provided, provided no earlier
update-validation rule rejects first (control in progress, user-control
annotation, `savepointsDir` absent or cleared, deployment type changed). -/
theorem validateUpdate_staleSavepoint (now : Int) (old new : FlinkCluster)
    (oj nj : JobSpec) (hoj : old.spec.job = some oj) (hnj : new.spec.job = some nj)
    (hgen : nj.savepointGeneration = oj.savepointGeneration)
    (hchanged : nj ≠ oj)
    (htsou : nj.takeSavepointOnUpdate = some false) :
    ((savepointUpToDate now old nj.maxStateAgeToRestoreSeconds = false
        ∧ nj.fromSavepoint = none) → (validateUpdate now old new).isSome)
      ∧ ((checkUserControl old new = none
          ∧ ¬ old.status.controlState = some ControlState.inProgress
          ∧ oj.savepointsDir.isSome ∧ nj.savepointsDir.isSome
          ∧ tmDeploymentType old = tmDeploymentType new
          ∧ (savepointUpToDate now old nj.maxStateAgeToRestoreSeconds = true
              ∨ nj.fromSavepoint.isSome))
          → validateUpdate now old new = none) := by
  have hne : ¬ new.spec = old.spec := by
    intro hs
    rw [hs, hoj] at hnj
    exact hchanged (Option.some_injective _ hnj).symm
  constructor
  · rintro ⟨hstale, hfrom⟩
    rw [Option.isSome_iff_ne_none]
    intro h
    have hspec := specUpdate_none_of_validateUpdate_none h hne
    unfold validateSpecUpdate at hspec
    rw [hoj, hnj] at hspec
    have hb : validateJobUpdate now old new oj nj = none := hspec
    have husable0 : savepointUsable now old nj = false := by
      simp [savepointUsable, hfrom, takeSavepointEnabled, htsou, hstale]
    unfold validateJobUpdate at hb
    rw [if_neg (not_not_intro hgen)] at hb
    split at hb
    · exact Option.noConfusion hb
    · split at hb
      · exact Option.noConfusion hb
      · split at hb
        · exact Option.noConfusion hb
        · rw [husable0] at hb
          simp at hb
  · rintro ⟨hcu, hprog, hdirO, hdirN, hdt, husable⟩
    simp only [validateUpdate, hcu]
    rw [if_neg hne, if_neg hprog]
    unfold validateSpecUpdate
    rw [hoj, hnj]
    show validateJobUpdate now old new oj nj = none
    rcases Option.isSome_iff_exists.mp hdirO with ⟨dO, hdO⟩
    rcases Option.isSome_iff_exists.mp hdirN with ⟨dN, hdN⟩
    have husable1 : savepointUsable now old nj = true := by
      rcases husable with hup | hfom
      · simp [savepointUsable, hup]
      · simp [savepointUsable, hfom]
    simp [validateJobUpdate, hgen, hdO, hdN, hdt, husable1, hchanged]

/-- C7 counterexample: the claim's acceptance half fails as stated: a
job-spec change with `takeSavepointOnUpdate = false` and `fromSavepoint`
provided is still rejected when the same update also changes the
task-manager deployment type. -/
theorem validateUpdate_staleSavepoint_counterexample :
    dtAndJobChangeNew.spec.job.map JobSpec.takeSavepointOnUpdate = some (some false)
      ∧ dtAndJobChangeNew.spec.job.map JobSpec.fromSavepoint
          = some (some ("gs://my-bucket/sp-1"))
      ∧ dtAndJobChangeNew.spec.job.map JobSpec.savepointGeneration
          = simpleCluster.spec.job.map JobSpec.savepointGeneration
      ∧ validateUpdate 0 simpleCluster dtAndJobChangeNew ≠ none := by
  refine ⟨by decide, by decide, by decide, by decide⟩

/-- C7 witness: a jar change with savepoint-on-update disabled is
accepted at time 1000 against a running job whose savepoint was taken at
time 950 (within the 60-second maximum state age), and would also have
been accepted via a provided `fromSavepoint`. -/
theorem validateUpdate_staleSavepoint_witness :
    freshSavepointNew.spec.job = some v2NoSpJobSpec
      ∧ validateUpdate 1000 freshSavepointOld freshSavepointNew = none :=
  ⟨rfl,
    (validateUpdate_staleSavepoint 1000 freshSavepointOld freshSavepointNew
        simpleJobSpec v2NoSpJobSpec rfl rfl rfl (by decide) rfl).2
      ⟨rfl, by decide, rfl, rfl, rfl, Or.inl (by decide)⟩⟩

/-- `firstDupBy` finds no duplicate exactly when the keys are distinct. -/
theorem firstDupBy_eq_none_iff {α β : Type} [DecidableEq β] (f : α → β) (l : List α) :
    firstDupBy f l = none ↔ (l.map f).Nodup := by
  induction l with
  | nil => simp [firstDupBy]
  | cons p ps ih =>
    by_cases h : f p ∈ ps.map f
    · simp [firstDupBy, h]
    · simp [firstDupBy, h, ih]

/-- A key reported by `firstDupBy` occurs at least twice in the list of
keys. -/
theorem two_le_count_of_firstDupBy {α β : Type} [DecidableEq β] (f : α → β) :
    ∀ (l : List α) (x : β), firstDupBy f l = some x → 2 ≤ (l.map f).count x := by
  intro l
  induction l with
  | nil => intro x hx; simp [firstDupBy] at hx
  | cons p ps ih =>
    intro x hx
    by_cases h : f p ∈ ps.map f
    · simp only [firstDupBy] at hx
      rw [if_pos h] at hx
      have hx2 : f p = x := by
        injection hx
      subst hx2
      have hpos : 0 < (ps.map f).count (f p) := List.count_pos_iff.mpr h
      rw [List.map_cons, List.count_cons_self]
      omega
    · simp only [firstDupBy] at hx
      rw [if_neg h] at hx
      have h2 := ih x hx
      rw [List.map_cons]
      exact le_trans h2 (List.count_le_count_cons x (f p) (ps.map f))

/-- The port check accepts exactly when both names and numbers are
duplicate-free. -/
theorem validatePorts_none_iff (k : ManagerKind) (ps : List NamedPort) :
    validatePorts k ps = none
      ↔ (ps.map NamedPort.name).Nodup ∧ (ps.map NamedPort.containerPort).Nodup := by
  unfold validatePorts
  cases h1 : firstDupBy NamedPort.name ps with
  | some n =>
    have hn : ¬ (ps.map NamedPort.name).Nodup := by
      rw [← firstDupBy_eq_none_iff NamedPort.name ps, h1]
      simp
    simp [hn]
  | none =>
    have hn : (ps.map NamedPort.name).Nodup :=
      (firstDupBy_eq_none_iff NamedPort.name ps).mp h1
    cases h2 : firstDupBy NamedPort.containerPort ps with
    | some p =>
      have hp : ¬ (ps.map NamedPort.containerPort).Nodup := by
        rw [← firstDupBy_eq_none_iff NamedPort.containerPort ps, h2]
        simp
      simp [hn, hp]
    | none =>
      have hp : (ps.map NamedPort.containerPort).Nodup :=
        (firstDupBy_eq_none_iff NamedPort.containerPort ps).mp h2
      simp [hn, hp]

/-- A port-check rejection message names a port name or container-port
number that occurs at least twice. -/
theorem validatePorts_some_dup (k : ManagerKind) (ps : List NamedPort) (m : String)
    (h : validatePorts k ps = some m) :
    (∃ n, 2 ≤ (ps.map NamedPort.name).count n ∧ m = dupPortNameMsg k n)
      ∨ (∃ p, 2 ≤ (ps.map NamedPort.containerPort).count p ∧ m = dupContainerPortMsg k p) := by
  unfold validatePorts at h
  cases h1 : firstDupBy NamedPort.name ps with
  | some n =>
    rw [h1] at h
    left
    refine ⟨n, two_le_count_of_firstDupBy NamedPort.name ps n h1, ?_⟩
    have : dupPortNameMsg k n = m := by injection h
    exact this.symm
  | none =>
    rw [h1] at h
    cases h2 : firstDupBy NamedPort.containerPort ps with
    | some p =>
      rw [h2] at h
      right
      refine ⟨p, two_le_count_of_firstDupBy NamedPort.containerPort ps p h2, ?_⟩
      have : dupContainerPortMsg k p = m := by injection h
      exact this.symm
    | none =>
      rw [h2] at h
      exact Option.noConfusion h

/-- C8: for each manager spec, the port validator accepts exactly when,
across the union of standard and extra ports, port names are unique and
container-port numbers are unique; every rejection message names a
duplicated port name or container-port number. -/
theorem managerPorts_unique_iff (jm : JobManagerSpec) (tm : TaskManagerSpec) :
    (validateJobManagerPorts jm = none
        ↔ ((jmPortList jm).map NamedPort.name).Nodup
          ∧ ((jmPortList jm).map NamedPort.containerPort).Nodup)
      ∧ (validateTaskManagerPorts tm = none
        ↔ ((tmPortList tm).map NamedPort.name).Nodup
          ∧ ((tmPortList tm).map NamedPort.containerPort).Nodup)
      ∧ (∀ m, validateJobManagerPorts jm = some m →
          (∃ n, 2 ≤ ((jmPortList jm).map NamedPort.name).count n
              ∧ m = dupPortNameMsg ManagerKind.jobmanager n)
          ∨ (∃ p, 2 ≤ ((jmPortList jm).map NamedPort.containerPort).count p
              ∧ m = dupContainerPortMsg ManagerKind.jobmanager p))
      ∧ (∀ m, validateTaskManagerPorts tm = some m →
          (∃ n, 2 ≤ ((tmPortList tm).map NamedPort.name).count n
              ∧ m = dupPortNameMsg ManagerKind.taskmanager n)
          ∨ (∃ p, 2 ≤ ((tmPortList tm).map NamedPort.containerPort).count p
              ∧ m = dupContainerPortMsg ManagerKind.taskmanager p)) :=
  ⟨validatePorts_none_iff ManagerKind.jobmanager (jmPortList jm),
    validatePorts_none_iff ManagerKind.taskmanager (tmPortList tm),
    fun m => validatePorts_some_dup ManagerKind.jobmanager (jmPortList jm) m,
    fun m => validatePorts_some_dup ManagerKind.taskmanager (tmPortList tm) m⟩

/-- C8 witness: via the theorem, the duplicate-name job-manager spec and
the duplicate-number task-manager spec are rejected, and the simple
job-manager spec is accepted. -/
theorem managerPorts_unique_iff_witness :
    validateJobManagerPorts jmDupName ≠ none
      ∧ validateTaskManagerPorts tmDupNumber ≠ none
      ∧ validateJobManagerPorts simpleJmSpec = none := by
  have h1 := (managerPorts_unique_iff jmDupName tmDupNumber).1
  have h2 := (managerPorts_unique_iff jmDupName tmDupNumber).2.1
  have h3 := (managerPorts_unique_iff simpleJmSpec simpleTmSpec).1
  refine ⟨?_, ?_, ?_⟩
  · intro hnone
    have hnodup := h1.mp hnone
    revert hnodup
    decide
  · intro hnone
    have hnodup := h2.mp hnone
    revert hnodup
    decide
  · exact h3.mpr (by decide)
